import Mathlib

/-!
Verification of the remix-dynamic-demo repository: a patch of Remix's
`Scripts` and `Links` rendering components that rewrites static asset URLs
with a runtime-supplied CDN prefix.

The embedding translates the two source files
`src/app/components/Scripts.tsx` and `src/app/components/Links.tsx`.
JavaScript values that matter only by identity are modelled by explicit
inductive types; JS `undefined` is modelled by `Option.none`; functions
that `throw` are modelled in `Except String`.  `process.env.NODE_ENV` is
taken to be `"production"` (the deployed configuration), so the
development-only `stack` fields serialize to nothing.
-/

set_option autoImplicit false

/-- Model of a JavaScript value as far as the `invariant` helper
(`Scripts.tsx` lines 39-51) inspects it: the strict checks
`value === false`, `value === null`, `typeof value === 'undefined'`
only look at the head of the value, so booleans, `null`, `undefined`,
`NaN`, numbers, strings and objects are each a constructor. -/
inductive JSValue where
  | bool (b : Bool)
  | null
  | undefined
  | nan
  | num (n : Int)
  | str (s : String)
  | obj
  deriving DecidableEq

/-- Translation of `invariant` (`Scripts.tsx` lines 47-51):
`if (value === false || value === null || typeof value === 'undefined')
throw new Error(message)`.  The optional message is carried by the
thrown error (`new Error(message)`). -/
def invariant (value : JSValue) (message : Option String) : Except (Option String) Unit :=
  if value = JSValue.bool false ∨ value = JSValue.null ∨ value = JSValue.undefined then
    Except.error message
  else
    Except.ok ()

/-- The U+2028 LINE SEPARATOR character matched by `ESCAPE_REGEX`. -/
def lineSeparator : Char := Char.ofNat 0x2028

/-- The U+2029 PARAGRAPH SEPARATOR character matched by `ESCAPE_REGEX`. -/
def paragraphSeparator : Char := Char.ofNat 0x2029

/-- Characters matched by `ESCAPE_REGEX = /[&><  ]/g`
(`Scripts.tsx` line 33). -/
def isEscapableChar (c : Char) : Bool :=
  c == '&' || c == '>' || c == '<' || c == lineSeparator || c == paragraphSeparator

/-- Per-character replacement performed by `escapeHtml`: the
`ESCAPE_LOOKUP` table of `Scripts.tsx` lines 25-31 on matched characters,
identity on everything else. -/
def escapeChar (c : Char) : String :=
  if c = '&' then "\\u0026"
  else if c = '>' then "\\u003e"
  else if c = '<' then "\\u003c"
  else if c = lineSeparator then "\\u2028"
  else if c = paragraphSeparator then "\\u2029"
  else String.singleton c

/-- Character-list worker for `escapeHtml`: `String.prototype.replace`
with a global single-character class regex replaces every matched
character independently. -/
def escapeList : List Char → List Char
  | [] => []
  | c :: cs => (escapeChar c).data ++ escapeList cs

/-- Translation of `escapeHtml` (`Scripts.tsx` lines 35-37). -/
def escapeHtml (html : String) : String :=
  String.mk (escapeList html.data)

/-- Model of the JavaScript builtin `JSON.stringify` restricted to
strings (the only use sites in these components pass strings or values
whose serialization is taken as given): hex digit helper. -/
def hexDigit (n : Nat) : Char :=
  if n < 10 then Char.ofNat (48 + n) else Char.ofNat (87 + n)

/-- Model of `JSON.stringify`'s escaping of a single character inside a
string literal (double quote, backslash, the two-character control
escapes and `\u00XX` for other control characters). -/
def jsonEscapeChar (c : Char) : String :=
  if c = '"' then "\\\""
  else if c = '\\' then "\\\\"
  else if c = Char.ofNat 8 then "\\b"
  else if c = Char.ofNat 9 then "\\t"
  else if c = Char.ofNat 10 then "\\n"
  else if c = Char.ofNat 12 then "\\f"
  else if c = Char.ofNat 13 then "\\r"
  else if c.toNat < 32 then
    "\\u00" ++ String.singleton (hexDigit (c.toNat / 16)) ++ String.singleton (hexDigit (c.toNat % 16))
  else String.singleton c

/-- Model of the JavaScript builtin `JSON.stringify` applied to a string
(BMP characters, no lone surrogates). -/
def jsonStringify (s : String) : String :=
  "\"" ++ String.join (s.data.map jsonEscapeChar) ++ "\""

/-- Translation of `addPrefix` (`Scripts.tsx` lines 165-166):
`(url, prefix) => prefix ? prefix + url : url`.  The second argument is
optional (`prefix?: string`); JS truthiness makes both `undefined` and
the empty string fall through to the bare `url`. -/
def addPrefix (url : String) (pfx : Option String) : String :=
  match pfx with
  | none => url
  | some p => if p = "" then url else p ++ url

/-- JS truthiness test for an optional string: `undefined` and `""` are
falsy, every other string is truthy. -/
def strTruthy : Option String → Bool
  | none => false
  | some s => s != ""

/-- Model of a `TrackedPromise` from `@remix-run/router` as the generated
script inspects it (`Scripts.tsx` lines 265-289): `_error` holds the
`message` of the settled error (`none` when `typeof _error === 'undefined'`;
production build, so the `stack` field serializes to nothing), `_data`
holds the JSON serialization of the resolved value (`none` when
`typeof _data === 'undefined'`). -/
structure TrackedPromise where
  _error : Option String
  _data : Option String
  deriving DecidableEq

/-- Model of a `DeferredData` record from `@remix-run/router` as consumed
by `Scripts.tsx`: the list of pending keys, the list of deferred keys,
and the `data` object mapping keys to tracked promises. -/
structure DeferredData where
  pendingKeys : List String
  deferredKeys : List String
  data : List (String × TrackedPromise)
  deriving DecidableEq

/-- Model of `staticContext` as read by `Scripts` (line 198): only its
`activeDeferreds` field (possibly `undefined`) is consumed, as an
association of route ids to deferred data. -/
structure StaticContext where
  activeDeferreds : Option (List (String × DeferredData))
  deriving DecidableEq

/-- One entry of `manifest.routes` (`module` URL and optional `imports`;
`imports || []` in the source makes an absent list behave as `[]`). -/
structure RouteManifestEntry where
  module : String
  imports : List String
  deriving DecidableEq

/-- The `manifest.entry` record: entry module URL and its imports. -/
structure EntryManifest where
  module : String
  imports : List String
  deriving DecidableEq

/-- Model of the asset manifest consumed by both components.  `routes` is
total: the router only produces matches for route ids present in the
manifest, so `manifest.routes[match.route.id]` is assumed defined.
`hmrRuntime` models `manifest.hmr?.runtime`. -/
structure Manifest where
  url : String
  entry : EntryManifest
  routes : String → RouteManifestEntry
  hmrRuntime : Option String

/-- The fields of `UNSAFE_RemixContext` destructured by `Scripts`
(line 180): `manifest`, `serverHandoffString`, `abortDelay`. -/
structure RemixContextValue where
  manifest : Manifest
  serverHandoffString : String
  abortDelay : Option Nat

/-- The fields of `UNSAFE_DataRouterContext` destructured by `Scripts`
(line 181): the `static` flag (named `isStatic` here) and the optional
`staticContext`. -/
structure DataRouterContextValue where
  isStatic : Bool
  staticContext : Option StaticContext

/-- The field of `UNSAFE_DataRouterStateContext` destructured by
`Scripts` (line 182): the `matches` array, reduced to the route ids
(`match.route.id`); named `routeMatches` because `matches` is a Lean
keyword. -/
structure DataRouterStateValue where
  routeMatches : List String

/-- What `DeferredHydrationScript` renders, reduced to its observable
shape: either the server-side `Await` subtree for a pending key, or the
placeholder `<script> </script>` tag. -/
inductive DeferredScriptRender where
  | awaitScript (routeId dataKey : String)
  | placeholder
  deriving DecidableEq

/-- Translation of the `DeferredHydrationScript` component
(`Scripts.tsx` lines 81-144).  `isServer` models
`typeof document === 'undefined'`.  The guard
`deferredData && dataKey && routeId` uses JS truthiness, so an empty
string key or route id falls through to the placeholder branch.  The
`invariant` on lines 90-95 becomes the `Except.error` case. -/
def DeferredHydrationScript (isServer : Bool) (dataKey : Option String)
    (deferredData : Option DeferredData) (routeId : Option String) :
    Except String DeferredScriptRender :=
  match isServer, deferredData, dataKey, routeId with
  | true, some dd, some k, some r =>
    if k = "" ∨ r = "" then Except.ok DeferredScriptRender.placeholder
    else if dd.pendingKeys.contains k then Except.ok (DeferredScriptRender.awaitScript r k)
    else Except.error ("Deferred data for route " ++ r ++ " with key " ++ k ++
      " was not pending but tried to render a script for it.")
  | _, _, _, _ => Except.ok DeferredScriptRender.placeholder

/-- The inline script emitted by the resolved branch of the server
`Await` (`Scripts.tsx` lines 121-133); `dataJson` stands for
`JSON.stringify(data)`. -/
def deferredResolvedScriptHtml (routeId dataKey dataJson : String) : String :=
  "__remixContext.r(" ++ jsonStringify routeId ++ ", " ++ jsonStringify dataKey ++
    ", " ++ escapeHtml dataJson ++ ");"

/-- The inline script emitted by `ErrorDeferredHydrationScript`
(`Scripts.tsx` lines 69-79) in a production build (no `stack`). -/
def errorDeferredScriptHtml (routeId dataKey errMessage : String) : String :=
  "__remixContext.r(" ++ jsonStringify routeId ++ ", " ++ jsonStringify dataKey ++
    ", !1, " ++ escapeHtml ("\x7b\"message\":" ++ jsonStringify errMessage ++ "\x7d") ++ ");"

/-- The `"key":__remixContext.n("routeId", "key")` fragment generated for
a pending deferred key (`Scripts.tsx` lines 259-263). -/
def pendingEntry (routeId key : String) : String :=
  jsonStringify key ++ ":__remixContext.n(" ++ jsonStringify routeId ++ ", " ++
    jsonStringify key ++ ")"

/-- The `"key":__remixContext.p(!1, error)` fragment generated for a key
whose tracked promise settled with an error (`Scripts.tsx` lines
266-278); production build, so the serialized error is
`{"message":...}`. -/
def errorEntry (key msg : String) : String :=
  jsonStringify key ++ ":__remixContext.p(!1, " ++
    escapeHtml ("\x7b\"message\":" ++ jsonStringify msg ++ "\x7d") ++ ")"

/-- The `"key":__remixContext.p(data)` fragment generated for a key whose
tracked promise resolved with data (`Scripts.tsx` lines 285-289);
`dataJson` stands for `JSON.stringify(trackedPromise._data)`. -/
def dataEntry (key dataJson : String) : String :=
  jsonStringify key ++ ":__remixContext.p(" ++ escapeHtml dataJson ++ ")"

/-- Translation of the per-key body of the `deferredData.deferredKeys.map`
callback (`Scripts.tsx` lines 248-292).  The returned `Bool` records
whether a `DeferredHydrationScript` was pushed onto `deferredScripts`
(the pending branch).  Reading `_error` off an absent tracked promise
would be a JS `TypeError`; keys outside `pendingKeys` are expected to
have settled promises in `data`. -/
def processKey (routeId : String) (dd : DeferredData) (key : String) :
    Except String (String × Bool) :=
  if dd.pendingKeys.contains key then
    Except.ok (pendingEntry routeId key, true)
  else
    match dd.data.lookup key with
    | none => Except.error "TypeError: Cannot read properties of undefined (reading \x27_error\x27)"
    | some tp =>
      match tp._error with
      | some msg => Except.ok (errorEntry key msg, false)
      | none =>
        match tp._data with
        | none => Except.error ("The deferred data for " ++ key ++
            " was not resolved, did you forget to return data from a deferred promise?")
        | some d => Except.ok (dataEntry key d, false)

/-- Processes a list of deferred keys in order, collecting the generated
`"key":expr` fragments and the `(routeId, key)` pairs for which a
`DeferredHydrationScript` element was pushed. -/
def processDeferredKeys (routeId : String) (dd : DeferredData) :
    List String → Except String (List String × List (String × String))
  | [] => Except.ok ([], [])
  | k :: ks =>
    match processKey routeId dd k with
    | Except.error e => Except.error e
    | Except.ok (entry, isPending) =>
      match processDeferredKeys routeId dd ks with
      | Except.error e => Except.error e
      | Except.ok (entries, pairs) =>
        Except.ok (entry :: entries,
          (if isPending then [(routeId, k)] else []) ++ pairs)

/-- Translation of the per-route body of
`Object.entries(activeDeferreds).map` (`Scripts.tsx` lines 245-297):
joins the key fragments with `",\n"` into the `Object.assign` call on
`__remixContext.state.loaderData[routeId]`. -/
def processRoute (routeId : String) (dd : DeferredData) :
    Except String (String × List (String × String)) :=
  match processDeferredKeys routeId dd dd.deferredKeys with
  | Except.error e => Except.error e
  | Except.ok (entries, pairs) =>
    Except.ok ("Object.assign(__remixContext.state.loaderData[" ++ jsonStringify routeId ++
      "], \x7b" ++ String.intercalate ",\n" entries ++ "\x7d);", pairs)

/-- Processes every route of `activeDeferreds` in entry order,
accumulating the per-route scripts and the pushed
`DeferredHydrationScript` pairs. -/
def processActiveDeferreds :
    List (String × DeferredData) → Except String (List String × List (String × String))
  | [] => Except.ok ([], [])
  | (rid, dd) :: rest =>
    match processRoute rid dd with
    | Except.error e => Except.error e
    | Except.ok (s, pairs) =>
      match processActiveDeferreds rest with
      | Except.error e => Except.error e
      | Except.ok (ss, morePairs) => Except.ok (s :: ss, pairs ++ morePairs)

/-- The fixed `__remixContext.p` / `.n` / `.r` utility block
(`Scripts.tsx` lines 213-243), joined with `'\n'`.  Production build:
the development-only `x.stack=e.stack;` entries are the empty string, and
the `setTimeout` line is present exactly when `abortDelay` is a
number. -/
def utilityBlock (abortDelay : Option Nat) : String :=
  String.intercalate "\n" [
    "__remixContext.p = function(v,e,p,x) \x7b",
    "  if (typeof e !== \x27undefined\x27) \x7b",
    "    x=new Error(e.message);",
    "",
    "    p=Promise.reject(x);",
    "  \x7d else \x7b",
    "    p=Promise.resolve(v);",
    "  \x7d",
    "  return p;",
    "\x7d;",
    "__remixContext.n = function(i,k) \x7b",
    "  __remixContext.t = __remixContext.t || \x7b\x7d;",
    "  __remixContext.t[i] = __remixContext.t[i] || \x7b\x7d;",
    "  let p = new Promise((r, e) => \x7b__remixContext.t[i][k] = \x7br:(v)=>\x7br(v);\x7d,e:(v)=>\x7be(v);\x7d\x7d;\x7d);",
    (match abortDelay with
     | some d => "setTimeout(() => \x7bif(typeof p._error !== \"undefined\" || typeof p._data !== \"undefined\")\x7breturn;\x7d __remixContext.t[i][k].e(new Error(\"Server timeout.\"))\x7d, " ++ toString d ++ ");"
     | none => ""),
    "  return p;",
    "\x7d;",
    "__remixContext.r = function(i,k,v,e,p,x) \x7b",
    "  p = __remixContext.t[i][k];",
    "  if (typeof e !== \x27undefined\x27) \x7b",
    "    x=new Error(e.message);",
    "",
    "    p.e(x);",
    "  \x7d else \x7b",
    "    p.r(v);",
    "  \x7d",
    "\x7d;"]

/-- Translation of the `contextScript` construction (`Scripts.tsx` lines
194-301): the `window.__remixContext = ...;` handoff (or `' '` without a
static context), plus — when `activeDeferreds` is defined — the utility
block, the per-route `Object.assign` scripts joined with `'\n'`, and the
trailing `__remixContext.a=N;` when at least one deferred script was
pushed.  The second component is the list of pushed
`DeferredHydrationScript` `(routeId, key)` pairs. -/
def scriptsContextScript (shs : String) (abortDelay : Option Nat)
    (staticContext : Option StaticContext) :
    Except String (String × List (String × String)) :=
  match staticContext with
  | none => Except.ok (" ", [])
  | some sc =>
    match sc.activeDeferreds with
    | none => Except.ok ("window.__remixContext = " ++ shs ++ ";", [])
    | some ads =>
      match processActiveDeferreds ads with
      | Except.error e => Except.error e
      | Except.ok (routeScripts, pairs) =>
        Except.ok (("window.__remixContext = " ++ shs ++ ";") ++ utilityBlock abortDelay ++
          String.intercalate "\n" routeScripts ++
          (if pairs.length > 0 then "__remixContext.a=" ++ toString pairs.length ++ ";" else ""),
          pairs)

/-- Translation of `dedupe` for `Scripts` (`Scripts.tsx` lines 406-408):
`[...new Set(array)]`, which keeps the first occurrence of each element
in order. -/
def dedupeAux (seen : List String) : List String → List String
  | [] => []
  | x :: xs =>
    if seen.contains x then dedupeAux seen xs
    else x :: dedupeAux (x :: seen) xs

/-- Entry point of `dedupe` (`Scripts.tsx` lines 406-408). -/
def dedupe (l : List String) : List String := dedupeAux [] l

/-- Translation of `routePreloads` (`Scripts.tsx` lines 370-376): for
each current or next match, `(route.imports || []).concat([route.module])`,
flattened. -/
def routePreloads (m : Manifest) (ms nextMs : List String) : List String :=
  ((ms ++ nextMs).map (fun id => (m.routes id).imports ++ [(m.routes id).module])).flatten

/-- Translation of `preloads` (`Scripts.tsx` line 378):
`isHydrated ? [] : manifest.entry.imports.concat(routePreloads)`. -/
def scriptsPreloads (m : Manifest) (isHydrated : Bool) (ms nextMs : List String) : List String :=
  if isHydrated then [] else m.entry.imports ++ routePreloads m ms nextMs

/-- Translation of the `routeModulesScript` template (`Scripts.tsx` lines
303-324) for a static render: the optional HMR runtime import (not
prefixed in the source), the prefixed manifest import, one prefixed
module import per match, the `window.__remixRouteModules` table, and
the prefixed dynamic import of the entry module. -/
def routeModulesScript (m : Manifest) (ms : List String) (pfx : Option String) : String :=
  (match m.hmrRuntime with
   | some r => if r != "" then "import " ++ jsonStringify r ++ ";" else ""
   | none => "")
  ++ "import " ++ jsonStringify ( addPrefix m.url pfx) ++ ";\n"
  ++ String.intercalate "\n" (ms.enum.map (fun ik =>
      "import * as route" ++ toString ik.1 ++ " from " ++
        jsonStringify ( addPrefix (m.routes ik.2).module pfx) ++ ";"))
  ++ "\nwindow.__remixRouteModules = \x7b"
  ++ String.intercalate "," (ms.enum.map (fun ik => jsonStringify ik.2 ++ ":route" ++ toString ik.1))
  ++ "\x7d;\n\nimport(" ++ jsonStringify ( addPrefix m.entry.module pfx) ++ ");"

/-- Translation of the client-side placeholder loop (`Scripts.tsx` lines
349-353): `if (!isStatic && typeof __remixContext === 'object' &&
__remixContext.a) for (i < __remixContext.a) push placeholder`.
`remixA` is the value of the global `__remixContext.a` when the global
object exists and the field is set. -/
def clientDeferredPlaceholders (isStatic : Bool) (remixA : Option Nat) : Nat :=
  if isStatic then 0
  else
    match remixA with
    | some n => if n ≠ 0 then n else 0
    | none => 0

/-- The observable output of one `Scripts` render: the two inline script
bodies, the `(routeId, key)` pairs of server `DeferredHydrationScript`
elements, the number of client placeholder `DeferredHydrationScript`
elements, and the hrefs of the emitted `rel="modulepreload"` links in
order (`Scripts.tsx` lines 380-403). -/
structure ScriptsOutput where
  contextScript : String
  routeModulesScript : String
  deferredScriptsServer : List (String × String)
  clientPlaceholderCount : Nat
  preloadHrefs : List String

/-- Translation of the `Scripts` component (`Scripts.tsx` lines 169-404)
for one render.  The three context arguments model the
`useContext` reads; a missing one throws `'Context Must Provide'`
(lines 176-178) before any markup is produced.  `remixA` models the
global `__remixContext.a` on the client, `nextMs` the route ids matched
from `navigation.location` (empty when idle), `isHydrated` the module
flag of line 150 (false on the first render). -/
def scripts (rc : Option RemixContextValue) (dc : Option DataRouterContextValue)
    (rs : Option DataRouterStateValue) (remixA : Option Nat)
    (nextMs : List String) (isHydrated : Bool) (pfx : Option String) :
    Except String ScriptsOutput :=
  match rc, dc, rs with
  | some rc, some dc, some rs =>
    match scriptsContextScript rc.serverHandoffString rc.abortDelay dc.staticContext with
    | Except.error e => Except.error e
    | Except.ok (ctx, pairs) =>
      Except.ok
        { contextScript := ctx
          routeModulesScript :=
            if dc.isStatic then routeModulesScript rc.manifest rs.routeMatches pfx else " "
          deferredScriptsServer := pairs
          clientPlaceholderCount := clientDeferredPlaceholders dc.isStatic remixA
          preloadHrefs :=
            addPrefix rc.manifest.url pfx ::
            addPrefix rc.manifest.entry.module pfx ::
            (dedupe (scriptsPreloads rc.manifest isHydrated rs.routeMatches nextMs)).map
              (fun u => addPrefix u pfx) }
  | _, _, _ => Except.error "Context Must Provide"

/-- A manifest whose manifest URL, entry module URL and route module URLs
are prefixed with `p`; the HMR runtime and the import lists are left
unchanged, mirroring exactly the URLs to which `Scripts` applies
`addPrefix` inside `routeModulesScript`. -/
def prefixManifest (p : String) (m : Manifest) : Manifest :=
  { url := p ++ m.url
    entry := { module := p ++ m.entry.module, imports := m.entry.imports }
    routes := fun id => { module := p ++ (m.routes id).module, imports := (m.routes id).imports }
    hmrRuntime := m.hmrRuntime }

/-- Total number of pending deferred keys over all routes of
`activeDeferreds`: for each route, the deferred keys that are members of
its `pendingKeys` set — exactly the keys for which the context-script
generation pushes a `DeferredHydrationScript`. -/
def pendingCount (ads : List (String × DeferredData)) : Nat :=
  (ads.map (fun rd => (rd.2.deferredKeys.filter (fun k => rd.2.pendingKeys.contains k)).length)).sum

/-- A link descriptor as consumed by `Links.tsx`: either an HTML link
descriptor (only the `rel`, `href` and `as` fields are inspected by this
code; `as` is named `asAttr` here) or a page-prefetch descriptor
(`isPageLinkDescriptor`: an object whose `page` is a string). -/
structure HtmlLinkDescriptor where
  rel : String
  href : Option String
  asAttr : Option String
  deriving DecidableEq

/-- A descriptor returned by a route module's `links()` function. -/
inductive LinkDescriptor where
  | html (d : HtmlLinkDescriptor)
  | page (page : String)
  deriving DecidableEq

/-- A route module as consumed by `Links.tsx`: its optional `links`
function, modelled as the (pure) list of fresh descriptor values it
returns on each call — as in this repository's `root.tsx`, which builds
new object literals on every invocation. -/
structure RouteModule where
  links? : Option (List LinkDescriptor)

/-- JS string coercion used by `prefix + href`: an `undefined` operand
stringifies to `"undefined"`. -/
def optStr : Option String → String
  | some s => s
  | none => "undefined"

/-- Translation of the mutation loop inside `getLinksForMatches`
(`Links.tsx` lines 91-99): for a non-page descriptor whose `rel` is
`'stylesheet'` and whose `href` is truthy, set `href` to
`prefix + href`. -/
def prefixStylesheetLink (pfx : String) (l : LinkDescriptor) : LinkDescriptor :=
  match l with
  | LinkDescriptor.html d =>
    match d.href with
    | some h =>
      if d.rel = "stylesheet" ∧ h ≠ "" then
        LinkDescriptor.html { d with href := some (pfx ++ h) }
      else LinkDescriptor.html d
    | none => LinkDescriptor.html d
  | LinkDescriptor.page pg => LinkDescriptor.page pg

/-- Translation of `dedupeHrefs` (`Links.tsx` lines 13-15):
`[...new Set(hrefs)]`. -/
def dedupeHrefs (hrefs : List String) : List String := dedupe hrefs

/-- Translation of `getCurrentPageModulePreloadHrefs` (`Links.tsx` lines
27-45): for each match, the route's module followed by its imports,
flattened and deduplicated. -/
def getCurrentPageModulePreloadHrefs (ms : List String) (m : Manifest) : List String :=
  dedupeHrefs ((ms.map (fun id => (m.routes id).module :: (m.routes id).imports)).flatten)

/-- The `alreadyModulePreload` test of `dedupe` in `Links.tsx` (lines
52-56): a non-page descriptor with `as === 'script'` and a truthy `href`
contained in the preload set. -/
def alreadyModulePreload (preloads : List String) (l : LinkDescriptor) : Bool :=
  match l with
  | LinkDescriptor.html d =>
    (d.asAttr == some "script") &&
      (match d.href with
       | some h => h != "" && preloads.contains h
       | none => false)
  | LinkDescriptor.page _ => false

/-- Worker for the descriptor `dedupe` of `Links.tsx` (lines 47-71):
drop descriptors already covered by module preloads, then keep the first
occurrence of each remaining descriptor (the source keys the `Set` by
`JSON.stringify(descriptor)`, which coincides with structural equality
on this model). -/
def dedupeDescriptorsAux (preloads : List String) (seen : List LinkDescriptor) :
    List LinkDescriptor → List LinkDescriptor
  | [] => []
  | l :: ls =>
    if alreadyModulePreload preloads l then dedupeDescriptorsAux preloads seen ls
    else if seen.contains l then dedupeDescriptorsAux preloads seen ls
    else l :: dedupeDescriptorsAux preloads (l :: seen) ls

/-- Translation of `dedupe` for descriptors (`Links.tsx` lines 47-71). -/
def dedupeDescriptors (descriptors : List LinkDescriptor) (preloads : List String) :
    List LinkDescriptor :=
  dedupeDescriptorsAux preloads [] descriptors

/-- Translation of `getLinksForMatches` (`Links.tsx` lines 77-107).  The
source calls `module.links?.()` a first time, mutates the stylesheet
hrefs of the returned fresh objects in place, then *calls
`module.links?.()` again* and returns that second call's result — so with
fresh-object `links` functions the mutation is discarded and the
returned descriptors carry the original hrefs. -/
def getLinksForMatches (ms : List String) (routeModules : String → RouteModule)
    (m : Manifest) (pfx : String) : List LinkDescriptor :=
  let descriptors :=
    (ms.map (fun id =>
      let module := routeModules id
      let links := (module.links?).getD []
      let _mutated := links.map ( prefixStylesheetLink pfx)
      (module.links?).getD [])).flatten
  let preloads := getCurrentPageModulePreloadHrefs ms m
  dedupeDescriptors descriptors preloads

/-- Translation of the per-descriptor body of the `parseLinks` loop in
the `Links` component (`Links.tsx` lines 129-140): stylesheet hrefs
become `prefix ? prefix + href : href`, truthy pages become
`prefix ? prefix + page : page`.  This loop mutates the descriptors held
by `useMemo`, so it is applied to the memoized array on *every*
render. -/
def parseLink (pfx : Option String) (l : LinkDescriptor) : LinkDescriptor :=
  match l with
  | LinkDescriptor.html d =>
    if d.rel = "stylesheet" then
      match pfx with
      | some p =>
        if p = "" then LinkDescriptor.html d
        else LinkDescriptor.html { d with href := some (p ++ optStr d.href) }
      | none => LinkDescriptor.html d
    else LinkDescriptor.html d
  | LinkDescriptor.page pg =>
    if pg = "" then LinkDescriptor.page pg
    else
      match pfx with
      | some p => if p = "" then LinkDescriptor.page pg else LinkDescriptor.page (p ++ pg)
      | none => LinkDescriptor.page pg

/-- The `links.forEach` pass of one `Links` render applied to the whole
memoized descriptor list. -/
def parseLinks (pfx : Option String) (links : List LinkDescriptor) : List LinkDescriptor :=
  links.map ( parseLink pfx)

/-- The memoized descriptor list computed once by `useMemo` in `Links`
(`Links.tsx` lines 122-126): `getLinksForMatches(matches, routeModules,
manifest, prefix)`, where an `undefined` prefix hits the `''` default
parameter. -/
def linksMemo (pfx : Option String) (ms : List String)
    (routeModules : String → RouteModule) (m : Manifest) : List LinkDescriptor :=
  getLinksForMatches ms routeModules m (match pfx with | some p => p | none => "")

/-- The state of the memoized descriptor objects after `n` applications
of the render-time `parseLinks` mutation. -/
def linksRenderState (pfx : Option String) (init : List LinkDescriptor) :
    Nat → List LinkDescriptor
  | 0 => init
  | n + 1 => parseLinks pfx (linksRenderState pfx init n)

/-- The descriptor list emitted by the `n`-th render (`n ≥ 1`) of the
`Links` component when the `useMemo` dependencies never change: the
memoized array after `n` in-place `parseLinks` passes. -/
def linksEmitted (pfx : Option String) (ms : List String)
    (routeModules : String → RouteModule) (m : Manifest) (n : Nat) : List LinkDescriptor :=
  linksRenderState pfx (linksMemo pfx ms routeModules m) n

/-- A CDN prefix used as concrete input in witnesses. -/
def cdn : String := "https://cdn.example.com"

/-- Concrete entry manifest for witnesses. -/
def demoEntry : EntryManifest :=
  { module := "/build/entry.client.js", imports := ["/build/shared.js"] }

/-- Concrete route manifest entry for witnesses. -/
def demoRoute : RouteManifestEntry :=
  { module := "/build/root.js", imports := ["/build/chunk.js"] }

/-- Concrete manifest for witnesses. -/
def demoManifest : Manifest :=
  { url := "/build/manifest.js", entry := demoEntry, routes := fun _ => demoRoute,
    hmrRuntime := none }

/-- Concrete Remix context for witnesses. -/
def demoRC : RemixContextValue :=
  { manifest := demoManifest, serverHandoffString := "\x7b\x7d", abortDelay := none }

/-- Concrete data-router context (static render, no active deferreds). -/
def demoDC : DataRouterContextValue :=
  { isStatic := true, staticContext := some { activeDeferreds := none } }

/-- Concrete router state for witnesses. -/
def demoRS : DataRouterStateValue := { routeMatches := ["root"] }

/-- Deferred data with one pending, one errored and one resolved key. -/
def dd5 : DeferredData :=
  { pendingKeys := ["p"], deferredKeys := ["p", "e", "d"],
    data := [("p", { _error := none, _data := none }),
             ("e", { _error := some "boom", _data := none }),
             ("d", { _error := none, _data := some "42" })] }

/-- Deferred data whose only key is neither pending nor settled. -/
def ddUnresolved : DeferredData :=
  { pendingKeys := [], deferredKeys := ["k"],
    data := [("k", { _error := none, _data := none })] }

/-- Deferred data with the single pending key `"a"` and a resolved key
`"b"`. -/
def dd6 : DeferredData :=
  { pendingKeys := ["a"], deferredKeys := ["a", "b"],
    data := [("a", { _error := none, _data := none }),
             ("b", { _error := none, _data := some "7" })] }

/-- A one-route `activeDeferreds` record built from `dd6`. -/
def ads6 : List (String × DeferredData) := [("r", dd6)]

/-- A concrete `serverHandoffString`. -/
def shs6 : String := "\x7b\x7d"

/-- The `DeferredHydrationScript` pairs generated for `ads6`. -/
def pairs6 : List (String × String) := [("r", "a")]

/-- The context script generated for `ads6` (extracted from the
successful run). -/
def ctx6 : String :=
  match scriptsContextScript shs6 none (some { activeDeferreds := some ads6 }) with
  | Except.ok p => p.1
  | Except.error _ => ""

/-- The per-route scripts generated for `ads6`. -/
def rscripts6 : List String :=
  match processActiveDeferreds ads6 with
  | Except.ok p => p.1
  | Except.error _ => []

/-- Remix context used by the deferred-script witnesses. -/
def rc7 : RemixContextValue :=
  { manifest := demoManifest, serverHandoffString := shs6, abortDelay := none }

/-- Data-router context with active deferreds `ads6`. -/
def dc7 : DataRouterContextValue :=
  { isStatic := true, staticContext := some { activeDeferreds := some ads6 } }

/-- A stylesheet link descriptor as returned by a route module's
`links()`. -/
def demoCss : LinkDescriptor :=
  LinkDescriptor.html { rel := "stylesheet", href := some "/app.css", asAttr := none }

/-- Route modules whose `links()` returns a fresh copy of `[demoCss]` on
each call. -/
def demoModules : String → RouteModule := fun _ => { links? := some [demoCss] }

theorem escapeChar_all_safe (c : Char) :
    ((escapeChar c).data.all (fun x => !isEscapableChar x)) = true := by
  by_cases h1 : c = '&'
  · subst h1; decide
  by_cases h2 : c = '>'
  · subst h2; decide
  by_cases h3 : c = '<'
  · subst h3; decide
  by_cases h4 : c = lineSeparator
  · subst h4; decide
  by_cases h5 : c = paragraphSeparator
  · subst h5; decide
  · simp [escapeChar, h1, h2, h3, h4, h5, String.singleton, isEscapableChar]

theorem escapeChar_of_safe (c : Char) (h : isEscapableChar c = false) :
    escapeChar c = String.singleton c := by
  simp only [isEscapableChar, Bool.or_eq_false_iff, beq_eq_false_iff_ne, ne_eq] at h
  obtain ⟨⟨⟨⟨n1, n2⟩, n3⟩, n4⟩, n5⟩ := h
  simp [escapeChar, n1, n2, n3, n4, n5]

theorem escapeList_all_safe (l : List Char) :
    ((escapeList l).all (fun x => !isEscapableChar x)) = true := by
  induction l with
  | nil => rfl
  | cons c cs ih => simp [escapeList, List.all_append, ih, escapeChar_all_safe]

theorem escapeList_of_safe (l : List Char)
    (h : (l.all (fun x => !isEscapableChar x)) = true) : escapeList l = l := by
  induction l with
  | nil => rfl
  | cons c cs ih =>
    simp only [List.all_cons, Bool.and_eq_true, Bool.not_eq_true'] at h
    rw [escapeList, escapeChar_of_safe c h.1, ih h.2]
    rfl

/-- C9: for every string `s`, `escapeHtml s` contains none of the five
characters matched by `ESCAPE_REGEX` (`'&'`, `'>'`, `'<'`, U+2028,
U+2029 — each replaced by its six-character escape, all others
unchanged), and consequently `escapeHtml` is idempotent. -/
theorem escapeHtml_safe_and_idempotent (s : String) :
    ((escapeHtml s).data.all (fun c => !isEscapableChar c)) = true ∧
    escapeHtml (escapeHtml s) = escapeHtml s := by
  constructor
  · exact escapeList_all_safe s.data
  · exact congrArg String.mk (escapeList_of_safe _ (escapeList_all_safe s.data))

/-- C8: `invariant` throws exactly when its first argument is strictly
`false`, `null` or `undefined`; every other value — including the falsy
values `0`, `NaN` and `""` — returns normally, and a thrown error
carries the supplied message. -/
theorem invariant_throws_iff (v : JSValue) (m : Option String) :
    (invariant v m = Except.error m ↔
      (v = JSValue.bool false ∨ v = JSValue.null ∨ v = JSValue.undefined)) ∧
    invariant (JSValue.num 0) m = Except.ok () ∧
    invariant JSValue.nan m = Except.ok () ∧
    invariant (JSValue.str "") m = Except.ok () ∧
    (invariant v m = Except.error m ∨ invariant v m = Except.ok ()) := by
  refine ⟨?_, rfl, rfl, rfl, ?_⟩
  · unfold invariant
    split
    · next h => simp [h]
    · next h => simp [h]
  · unfold invariant
    split
    · exact Or.inl rfl
    · exact Or.inr rfl

theorem addPrefix_empty (u : String) : addPrefix u (some "") = addPrefix u none := rfl

theorem routeModulesScript_empty (m : Manifest) (ms : List String) :
    routeModulesScript m ms (some "") = routeModulesScript m ms none := by
  simp [routeModulesScript, addPrefix]

/-- C10: `addPrefix` with an empty or absent prefix is the identity on
URLs, and `Scripts` invoked with `prefix=""` produces exactly the same
output as `Scripts` invoked with no prefix. -/
theorem addPrefix_falsy_identity (u : String) (rc : Option RemixContextValue)
    (dc : Option DataRouterContextValue) (rs : Option DataRouterStateValue)
    (remixA : Option Nat) (nextMs : List String) (isHydrated : Bool) :
    addPrefix u (some "") = u ∧ addPrefix u none = u ∧
    scripts rc dc rs remixA nextMs isHydrated (some "") =
      scripts rc dc rs remixA nextMs isHydrated none := by
  refine ⟨rfl, rfl, ?_⟩
  cases rc with
  | none => cases dc <;> cases rs <;> rfl
  | some c =>
    cases dc with
    | none => cases rs <;> rfl
    | some d =>
      cases rs with
      | none => rfl
      | some r =>
        cases h1 : scriptsContextScript c.serverHandoffString c.abortDelay d.staticContext with
        | error e => simp [scripts, h1]
        | ok pr => simp [scripts, h1, routeModulesScript_empty, addPrefix]

/-- C3: if any of the three required contexts is missing, `Scripts`
throws `'Context Must Provide'` (modelled as `Except.error`, so no
markup is produced). -/
theorem scripts_missing_context_throws (rc : Option RemixContextValue)
    (dc : Option DataRouterContextValue) (rs : Option DataRouterStateValue)
    (remixA : Option Nat) (nextMs : List String) (isHydrated : Bool) (pfx : Option String)
    (h : rc = none ∨ dc = none ∨ rs = none) :
    scripts rc dc rs remixA nextMs isHydrated pfx = Except.error "Context Must Provide" := by
  rcases h with h1 | h2 | h3
  · subst h1; cases dc <;> cases rs <;> rfl
  · subst h2; cases rc <;> cases rs <;> rfl
  · subst h3; cases rc <;> cases dc <;> rfl

/-- Witness for C3 at a concrete input: the Remix context is missing and
`Scripts` throws. -/
theorem scripts_missing_context_throws_witness :
    ((none : Option RemixContextValue) = none ∨
      (some demoDC : Option DataRouterContextValue) = none ∨
      (some demoRS : Option DataRouterStateValue) = none) ∧
    scripts none (some demoDC) (some demoRS) none [] false none =
      Except.error "Context Must Provide" :=
  ⟨Or.inl rfl,
   scripts_missing_context_throws none (some demoDC) (some demoRS) none [] false none
     (Or.inl rfl)⟩

theorem processKey_flag (rid : String) (dd : DeferredData) (k : String)
    (out : String × Bool) (h : processKey rid dd k = Except.ok out) :
    out.2 = dd.pendingKeys.contains k := by
  by_cases hc : dd.pendingKeys.contains k = true
  · have hm : k ∈ dd.pendingKeys := by simpa using hc
    have hp : processKey rid dd k = Except.ok (pendingEntry rid k, true) := by
      simp [processKey, hm]
    rw [hp] at h
    cases h
    exact hc.symm
  · have hc' : dd.pendingKeys.contains k = false := by simpa using hc
    have hm : k ∉ dd.pendingKeys := by simpa using hc
    cases hl : dd.data.lookup k with
    | none =>
      have hp : processKey rid dd k =
          Except.error "TypeError: Cannot read properties of undefined (reading \x27_error\x27)" := by
        simp [processKey, hm, hl]
      rw [hp] at h
      simp at h
    | some tp =>
      cases he : tp._error with
      | some msg =>
        have hp : processKey rid dd k = Except.ok (errorEntry k msg, false) := by
          simp [processKey, hm, hl, he]
        rw [hp] at h
        cases h
        exact hc'.symm
      | none =>
        cases hd : tp._data with
        | none =>
          have hp : processKey rid dd k = Except.error ("The deferred data for " ++ k ++
              " was not resolved, did you forget to return data from a deferred promise?") := by
            simp [processKey, hm, hl, he, hd]
          rw [hp] at h
          simp at h
        | some dv =>
          have hp : processKey rid dd k = Except.ok (dataEntry k dv, false) := by
            simp [processKey, hm, hl, he, hd]
          rw [hp] at h
          cases h
          exact hc'.symm

/-- C5: the fragment generated for each deferred key assigns the key to
exactly one of `__remixContext.n(routeId, key)` (pending — the call that
registers the resolvable/rejectable promise under
`__remixContext.t[routeId][key]`), `__remixContext.p(!1, error)`
(settled with an error), or `__remixContext.p(data)` (settled with
data); a `DeferredHydrationScript` (the registry entry) is pushed for
pending keys and only for pending keys (the returned flag equals
membership in `pendingKeys`). -/
theorem processKey_assignment_trichotomy (rid : String) (dd : DeferredData)
    (k : String) (tp : TrackedPromise) (msg dv : String) (out : String × Bool) :
    (processKey rid dd k = Except.ok out → out.2 = dd.pendingKeys.contains k) ∧
    (dd.pendingKeys.contains k = true →
      processKey rid dd k = Except.ok (pendingEntry rid k, true)) ∧
    (dd.pendingKeys.contains k = false → dd.data.lookup k = some tp →
      tp._error = some msg →
      processKey rid dd k = Except.ok (errorEntry k msg, false)) ∧
    (dd.pendingKeys.contains k = false → dd.data.lookup k = some tp →
      tp._error = none → tp._data = some dv →
      processKey rid dd k = Except.ok (dataEntry k dv, false)) := by
  refine ⟨processKey_flag rid dd k out, ?_, ?_, ?_⟩
  · intro hc
    have hm : k ∈ dd.pendingKeys := by simpa using hc
    simp [processKey, hm]
  · intro hc hl he
    have hm : k ∉ dd.pendingKeys := by simpa using hc
    simp [processKey, hm, hl, he]
  · intro hc hl he hd
    have hm : k ∉ dd.pendingKeys := by simpa using hc
    simp [processKey, hm, hl, he, hd]

/-- Witness for C5 on `dd5`: the pending key `"p"`, the errored key
`"e"` and the resolved key `"d"` each produce their branch's fragment,
and only the pending key reports a pushed script. -/
theorem processKey_assignment_trichotomy_witness :
    ((pendingEntry "r" "p", true) : String × Bool).2 = dd5.pendingKeys.contains "p" ∧
    processKey "r" dd5 "p" = Except.ok (pendingEntry "r" "p", true) ∧
    processKey "r" dd5 "e" = Except.ok (errorEntry "e" "boom", false) ∧
    processKey "r" dd5 "d" = Except.ok (dataEntry "d" "42", false) :=
  ⟨(processKey_assignment_trichotomy "r" dd5 "p" { _error := none, _data := none } "" ""
      (pendingEntry "r" "p", true)).1 rfl,
   (processKey_assignment_trichotomy "r" dd5 "p" { _error := none, _data := none } "" ""
      (pendingEntry "r" "p", true)).2.1 rfl,
   (processKey_assignment_trichotomy "r" dd5 "e" { _error := some "boom", _data := none }
      "boom" "" (pendingEntry "r" "p", true)).2.2.1 rfl rfl rfl,
   (processKey_assignment_trichotomy "r" dd5 "d" { _error := none, _data := some "42" }
      "" "42" (pendingEntry "r" "p", true)).2.2.2 rfl rfl rfl rfl⟩

/-- Counterexample to C4 as stated: on the server, with a deferred-data
record whose `pendingKeys` do not contain the empty-string key,
`DeferredHydrationScript` does *not* throw for the empty-string key —
the JS guard `deferredData && dataKey && routeId` treats `""` as falsy,
so the component renders the placeholder instead. -/
theorem deferred_script_empty_key_not_thrown :
    dd6.pendingKeys.contains "" = false ∧
    DeferredHydrationScript true (some "") (some dd6) (some "r") =
      Except.ok DeferredScriptRender.placeholder :=
  ⟨rfl, rfl⟩

/-- C4 (amended): (i) during initial-script generation, a deferred key
outside `pendingKeys` whose tracked promise has neither `_error` nor
defined `_data` makes generation throw with a message naming that key;
(ii) on the server, for a supplied deferred-data record, *non-empty*
key and *non-empty* route id, a key outside `pendingKeys` makes
`DeferredHydrationScript` throw with a message naming the route id and
the key. -/
theorem deferred_errors_descriptive (rid : String) (dd : DeferredData) (k : String)
    (tp : TrackedPromise) (dd2 : DeferredData) (k2 r2 : String) :
    (dd.pendingKeys.contains k = false → dd.data.lookup k = some tp →
      tp._error = none → tp._data = none →
      processKey rid dd k = Except.error ("The deferred data for " ++ k ++
        " was not resolved, did you forget to return data from a deferred promise?")) ∧
    (k2 ≠ "" → r2 ≠ "" → dd2.pendingKeys.contains k2 = false →
      DeferredHydrationScript true (some k2) (some dd2) (some r2) =
        Except.error ("Deferred data for route " ++ r2 ++ " with key " ++ k2 ++
          " was not pending but tried to render a script for it.")) := by
  constructor
  · intro hc hl he hd
    have hm : k ∉ dd.pendingKeys := by simpa using hc
    simp [processKey, hm, hl, he, hd]
  · intro hk hr hc
    have hm : k2 ∉ dd2.pendingKeys := by simpa using hc
    simp [DeferredHydrationScript, hk, hr, hm]

/-- Witness for C4 at concrete inputs: the unresolved key `"k"` of
`ddUnresolved` makes generation throw with the message naming `"k"`, and
the non-pending key `"k"` makes the server `DeferredHydrationScript`
throw with the message naming route `"root"` and key `"k"`. -/
theorem deferred_errors_descriptive_witness :
    processKey "root" ddUnresolved "k" = Except.error
      "The deferred data for k was not resolved, did you forget to return data from a deferred promise?" ∧
    DeferredHydrationScript true (some "k") (some ddUnresolved) (some "root") =
      Except.error
        "Deferred data for route root with key k was not pending but tried to render a script for it." :=
  ⟨(deferred_errors_descriptive "root" ddUnresolved "k" { _error := none, _data := none }
      ddUnresolved "k" "root").1 rfl rfl rfl rfl,
   (deferred_errors_descriptive "root" ddUnresolved "k" { _error := none, _data := none }
      ddUnresolved "k" "root").2 (by decide) (by decide) rfl⟩

theorem processDeferredKeys_pairs (rid : String) (dd : DeferredData) :
    ∀ (ks es : List String) (ps : List (String × String)),
    processDeferredKeys rid dd ks = Except.ok (es, ps) →
    ps = (ks.filter (fun k => dd.pendingKeys.contains k)).map (fun k => (rid, k)) := by
  intro ks
  induction ks with
  | nil =>
    intro es ps h
    cases h
    rfl
  | cons k ks ih =>
    intro es ps h
    cases hk : processKey rid dd k with
    | error e =>
      have heq : processDeferredKeys rid dd (k :: ks) = Except.error e := by
        simp [processDeferredKeys, hk]
      rw [heq] at h
      simp at h
    | ok eb =>
      obtain ⟨entry, isPending⟩ := eb
      cases hrec : processDeferredKeys rid dd ks with
      | error e =>
        have heq : processDeferredKeys rid dd (k :: ks) = Except.error e := by
          simp [processDeferredKeys, hk, hrec]
        rw [heq] at h
        simp at h
      | ok ep =>
        obtain ⟨entries, pairs⟩ := ep
        have heq : processDeferredKeys rid dd (k :: ks) =
            Except.ok (entry :: entries, (if isPending then [(rid, k)] else []) ++ pairs) := by
          simp [processDeferredKeys, hk, hrec]
        rw [heq] at h
        cases h
        have hflag : isPending = dd.pendingKeys.contains k :=
          processKey_flag rid dd k (entry, isPending) hk
        have hps := ih entries pairs hrec
        rw [hflag]
        by_cases hc : dd.pendingKeys.contains k = true
        · have hm : k ∈ dd.pendingKeys := by simpa using hc
          simp [hm, hps, List.filter_cons]
        · have hm : k ∉ dd.pendingKeys := by simpa using hc
          simp [hm, hps, List.filter_cons]

theorem processRoute_pairs (rid : String) (dd : DeferredData) (s : String)
    (ps : List (String × String)) (h : processRoute rid dd = Except.ok (s, ps)) :
    ps = (dd.deferredKeys.filter (fun k => dd.pendingKeys.contains k)).map (fun k => (rid, k)) := by
  cases hk : processDeferredKeys rid dd dd.deferredKeys with
  | error e =>
    have heq : processRoute rid dd = Except.error e := by simp [processRoute, hk]
    rw [heq] at h
    simp at h
  | ok ep =>
    obtain ⟨entries, pairs⟩ := ep
    have heq : processRoute rid dd = Except.ok
        ("Object.assign(__remixContext.state.loaderData[" ++ jsonStringify rid ++ "], \x7b" ++
          String.intercalate ",\n" entries ++ "\x7d);", pairs) := by
      simp [processRoute, hk]
    rw [heq] at h
    cases h
    exact processDeferredKeys_pairs rid dd dd.deferredKeys entries ps hk

theorem processActiveDeferreds_pairs_length :
    ∀ (ads : List (String × DeferredData)) (ss : List String) (ps : List (String × String)),
    processActiveDeferreds ads = Except.ok (ss, ps) → ps.length = pendingCount ads := by
  intro ads
  induction ads with
  | nil =>
    intro ss ps h
    cases h
    rfl
  | cons rd rest ih =>
    obtain ⟨rid, dd⟩ := rd
    intro ss ps h
    cases hr : processRoute rid dd with
    | error e =>
      have heq : processActiveDeferreds ((rid, dd) :: rest) = Except.error e := by
        simp [processActiveDeferreds, hr]
      rw [heq] at h
      simp at h
    | ok sp =>
      obtain ⟨s, pairs⟩ := sp
      cases hrest : processActiveDeferreds rest with
      | error e =>
        have heq : processActiveDeferreds ((rid, dd) :: rest) = Except.error e := by
          simp [processActiveDeferreds, hr, hrest]
        rw [heq] at h
        simp at h
      | ok sp2 =>
        obtain ⟨ss2, morePairs⟩ := sp2
        have heq : processActiveDeferreds ((rid, dd) :: rest) =
            Except.ok (s :: ss2, pairs ++ morePairs) := by
          simp [processActiveDeferreds, hr, hrest]
        rw [heq] at h
        cases h
        have h1 := processRoute_pairs rid dd s pairs hr
        have h2 := ih ss2 morePairs hrest
        simp [pendingCount, h1, h2, List.length_append]

/-- C6: the context script appends `__remixContext.a=N;` exactly when at
least one deferred key is pending, with `N` the total number of pending
deferred keys over all routes, which equals the number of server-pushed
`DeferredHydrationScript` elements; feeding that value of
`__remixContext.a` to the client placeholder loop renders exactly as
many placeholder elements, so the client tree matches the server
tree. -/
theorem contextScript_deferred_count (shs : String) (ad : Option Nat)
    (ads : List (String × DeferredData)) (ctx : String)
    (pairs : List (String × String)) (rscripts : List String)
    (h1 : scriptsContextScript shs ad (some { activeDeferreds := some ads }) =
      Except.ok (ctx, pairs))
    (h2 : processActiveDeferreds ads = Except.ok (rscripts, pairs)) :
    pairs.length = pendingCount ads ∧
    ctx = ("window.__remixContext = " ++ shs ++ ";") ++ utilityBlock ad ++
      String.intercalate "\n" rscripts ++
      (if pendingCount ads > 0 then "__remixContext.a=" ++ toString (pendingCount ads) ++ ";"
       else "") ∧
    clientDeferredPlaceholders false
        (if pairs.length = 0 then none else some pairs.length) = pairs.length := by
  have hlen : pairs.length = pendingCount ads :=
    processActiveDeferreds_pairs_length ads rscripts pairs h2
  refine ⟨hlen, ?_, ?_⟩
  · have heq : scriptsContextScript shs ad (some { activeDeferreds := some ads }) =
        Except.ok (("window.__remixContext = " ++ shs ++ ";") ++ utilityBlock ad ++
          String.intercalate "\n" rscripts ++
          (if pairs.length > 0 then "__remixContext.a=" ++ toString pairs.length ++ ";" else ""),
          pairs) := by
      simp [scriptsContextScript, h2]
    rw [heq] at h1
    cases h1
    rw [hlen]
  · by_cases hz : pairs.length = 0
    · simp [clientDeferredPlaceholders, hz]
    · simp [clientDeferredPlaceholders, hz]

/-- Witness for C6 on the concrete `ads6` (one pending key out of two
deferred keys): one pair is pushed, the script ends with
`__remixContext.a=1;`, and the client renders one placeholder. -/
theorem contextScript_deferred_count_witness :
    pairs6.length = pendingCount ads6 ∧
    ctx6 = ("window.__remixContext = " ++ shs6 ++ ";") ++ utilityBlock none ++
      String.intercalate "\n" rscripts6 ++
      (if pendingCount ads6 > 0 then "__remixContext.a=" ++ toString (pendingCount ads6) ++ ";"
       else "") ∧
    clientDeferredPlaceholders false
        (if pairs6.length = 0 then none else some pairs6.length) = pairs6.length :=
  contextScript_deferred_count shs6 none ads6 ctx6 pairs6 rscripts6 rfl rfl

theorem addPrefix_of_ne_empty (p u : String) (h : p ≠ "") :
    addPrefix u (some p) = p ++ u := by
  simp [addPrefix, h]

theorem routeModulesScript_prefix (p : String) (h : p ≠ "") (m : Manifest)
    (ms : List String) :
    routeModulesScript m ms (some p) = routeModulesScript (prefixManifest p m) ms none := by
  simp [routeModulesScript, prefixManifest, addPrefix, h]

/-- C1: for every non-empty prefix, every manifest-derived asset URL that
`Scripts` emits is the prefix concatenated in front of the original URL
and nothing else — the generated module script equals the unprefixed
script computed from a manifest whose URLs are pre-prefixed, and the
`rel="modulepreload"` hrefs are the unprefixed hrefs with the prefix
prepended; `addPrefix` itself prepends the prefix verbatim, and with no
prefix it emits the URL unchanged. -/
theorem scripts_cdn_rewrite (rc : Option RemixContextValue)
    (dc : Option DataRouterContextValue) (rs : Option DataRouterStateValue)
    (remixA : Option Nat) (nextMs : List String) (isHydrated : Bool) (p u : String)
    (h : p ≠ "") :
    Except.map (fun o => o.routeModulesScript)
        (scripts rc dc rs remixA nextMs isHydrated (some p)) =
      Except.map (fun o => o.routeModulesScript)
        (scripts (rc.map (fun c => { c with manifest := prefixManifest p c.manifest }))
          dc rs remixA nextMs isHydrated none) ∧
    Except.map (fun o => o.preloadHrefs)
        (scripts rc dc rs remixA nextMs isHydrated (some p)) =
      Except.map (fun o => o.preloadHrefs.map (fun v => p ++ v))
        (scripts rc dc rs remixA nextMs isHydrated none) ∧
    addPrefix u (some p) = p ++ u ∧
    addPrefix u none = u := by
  refine ⟨?_, ?_, addPrefix_of_ne_empty p u h, rfl⟩
  · cases rc with
    | none => cases dc <;> cases rs <;> rfl
    | some c =>
      cases dc with
      | none => cases rs <;> rfl
      | some d =>
        cases rs with
        | none => rfl
        | some r =>
          cases h1 : scriptsContextScript c.serverHandoffString c.abortDelay d.staticContext with
          | error e => simp [scripts, h1, Except.map]
          | ok pr =>
            simp [scripts, h1, Except.map]
            by_cases hs : d.isStatic <;>
              simp [hs, routeModulesScript_prefix p h]
  · cases rc with
    | none => cases dc <;> cases rs <;> rfl
    | some c =>
      cases dc with
      | none => cases rs <;> rfl
      | some d =>
        cases rs with
        | none => rfl
        | some r =>
          cases h1 : scriptsContextScript c.serverHandoffString c.abortDelay d.staticContext with
          | error e => simp [scripts, h1, Except.map]
          | ok pr =>
            simp [scripts, h1, addPrefix, h, List.map_map, Function.comp, Except.map]

/-- Witness for C1 at a concrete static render with the concrete prefix
`cdn`. -/
theorem scripts_cdn_rewrite_witness :
    cdn ≠ "" ∧
    (Except.map (fun o => o.routeModulesScript)
        (scripts (some demoRC) (some demoDC) (some demoRS) none [] false (some cdn)) =
      Except.map (fun o => o.routeModulesScript)
        (scripts ((some demoRC).map (fun c => { c with manifest := prefixManifest cdn c.manifest }))
          (some demoDC) (some demoRS) none [] false none) ∧
    Except.map (fun o => o.preloadHrefs)
        (scripts (some demoRC) (some demoDC) (some demoRS) none [] false (some cdn)) =
      Except.map (fun o => o.preloadHrefs.map (fun v => cdn ++ v))
        (scripts (some demoRC) (some demoDC) (some demoRS) none [] false none) ∧
    addPrefix "/build/manifest.js" (some cdn) = cdn ++ "/build/manifest.js" ∧
    addPrefix "/build/manifest.js" none = "/build/manifest.js") :=
  ⟨by decide,
   scripts_cdn_rewrite (some demoRC) (some demoDC) (some demoRS) none [] false cdn
     "/build/manifest.js" (by decide)⟩

/-- C7 (amended): the deferred-data hydration scripts emitted by
`Scripts` carry no asset URLs and are untouched by the prefix — the
context script, the server `DeferredHydrationScript` elements and the
client placeholder count are identical for any two prefix values. -/
theorem deferred_scripts_prefix_independent (rc : Option RemixContextValue)
    (dc : Option DataRouterContextValue) (rs : Option DataRouterStateValue)
    (remixA : Option Nat) (nextMs : List String) (isHydrated : Bool)
    (pfx1 pfx2 : Option String) :
    Except.map (fun o => (o.contextScript, o.deferredScriptsServer, o.clientPlaceholderCount))
        (scripts rc dc rs remixA nextMs isHydrated pfx1) =
      Except.map (fun o => (o.contextScript, o.deferredScriptsServer, o.clientPlaceholderCount))
        (scripts rc dc rs remixA nextMs isHydrated pfx2) := by
  cases rc with
  | none => cases dc <;> cases rs <;> rfl
  | some c =>
    cases dc with
    | none => cases rs <;> rfl
    | some d =>
      cases rs with
      | none => rfl
      | some r =>
        cases h1 : scriptsContextScript c.serverHandoffString c.abortDelay d.staticContext with
        | error e => simp [scripts, h1, Except.map]
        | ok pr => simp [scripts, h1, Except.map]

/-- Counterexample to C7 as stated: at a concrete static render with one
pending deferred key and the concrete CDN prefix, the deferred hydration
scripts are byte-identical with and without the prefix (nothing in them
is rewritten), their inline content being the `__remixContext.r` call
with no asset URL in it. -/
theorem deferred_scripts_cdn_counterexample :
    Except.map (fun o => o.deferredScriptsServer)
        (scripts (some rc7) (some dc7) (some demoRS) none [] false (some cdn)) =
      Except.ok pairs6 ∧
    Except.map (fun o => o.deferredScriptsServer)
        (scripts (some rc7) (some dc7) (some demoRS) none [] false none) =
      Except.ok pairs6 ∧
    deferredResolvedScriptHtml "r" "a" "7" = "__remixContext.r(\"r\", \"a\", 7);" ∧
    DeferredHydrationScript true (some "a") (some dd6) (some "r") =
      Except.ok (DeferredScriptRender.awaitScript "r" "a") :=
  ⟨rfl, rfl, rfl, rfl⟩

/-- C2 evaluated at its failing input: `getLinksForMatches` returns the
descriptors unprefixed (the in-place mutation is discarded by the second
`links()` call); the first `Links` render then prefixes the stylesheet
href once, but the second render of the same memoized descriptors
prefixes it again, emitting a double-prefixed href. -/
theorem links_double_prefix_on_rerender :
    getLinksForMatches ["root"] demoModules demoManifest cdn = [demoCss] ∧
    linksEmitted (some cdn) ["root"] demoModules demoManifest 1 =
      [LinkDescriptor.html
        { rel := "stylesheet", href := some "https://cdn.example.com/app.css", asAttr := none }] ∧
    linksEmitted (some cdn) ["root"] demoModules demoManifest 2 =
      [LinkDescriptor.html
        { rel := "stylesheet",
          href := some "https://cdn.example.comhttps://cdn.example.com/app.css",
          asAttr := none }] :=
  ⟨rfl, rfl, rfl⟩
